import Mathlib

/-!
Verification of the homework_bot polling/notification engine
(src/homework.py, src/exceptions.py) against its specification.

The Python code is shallowly embedded: JSON-like Python values become the
inductive `PyVal`, exceptions become the inductive `PyExc` carried in
`Except`, the `main` polling loop becomes an explicit step function
`iteration` over `LoopState` driven by a `TransportResult` environment,
and `while True` is run over a finite list of per-iteration environments
by `run`.
-/

namespace HomeworkBot

/-- A Python value as it occurs in decoded API payloads: `None`, ints,
strings, lists and string-keyed dicts (the only shapes the code inspects). -/
inductive PyVal where
  | none
  | int (n : Int)
  | str (s : String)
  | list (elems : List PyVal)
  | dict (entries : List (String × PyVal))

/-- Python truthiness for the values of `PyVal`: `None`, `0`, `""` and the
empty list/dict are falsy, everything else is truthy. -/
def truthy : PyVal → Bool
  | .none => false
  | .int n => n != 0
  | .str s => s != ""
  | .list xs => !xs.isEmpty
  | .dict es => !es.isEmpty

/-- `d.get(key)` on a dict given as an entry list: the first value bound to
`key`, or `PyVal.none` when the key is absent (Python returns `None`). -/
def dictGet : List (String × PyVal) → String → PyVal
  | [], _ => .none
  | (k, v) :: rest, key => if k = key then v else dictGet rest key

/-- `key in d` on a dict given as an entry list. -/
def hasKey : List (String × PyVal) → String → Bool
  | [], _ => false
  | (k, _) :: rest, key => k = key || hasKey rest key

/-- `response.get(key)`; the non-dict case never arises where this is used
(`check_response` has already established the value is a dict). -/
def pyGet (v : PyVal) (key : String) : PyVal :=
  match v with
  | .dict es => dictGet es key
  | _ => .none

/-- `key in v` for a dict value (only ever reached on dicts in the code). -/
def hasKeyV (v : PyVal) (key : String) : Bool :=
  match v with
  | .dict es => hasKey es key
  | _ => false

/-- `isinstance(v, dict)`. -/
def isDict : PyVal → Bool
  | .dict _ => true
  | _ => false

/-- `isinstance(v, list)`. -/
def isList : PyVal → Bool
  | .list _ => true
  | _ => false

/-- Rendering of a value inside an f-string. Exact for the strings and ints
the claims involve; the remaining cases (which never reach an f-string in
the modelled runs) use simplified placeholders instead of Python repr. -/
def pyStr : PyVal → String
  | .str s => s
  | .int n => toString n
  | .none => "None"
  | .list _ => "<list>"
  | .dict _ => "<dict>"

/-- The Python exceptions raised by the embedded functions.
`src/exceptions.py` also declares `EndpointIsUnavailable`,
`HttpStatusCodeError`, `JsonApiError`, `EmptyResponseError` and
`KeyResponseError`, but `src/homework.py` imports only `ParseStatusError`
and never raises any of the others, so they have no constructor here. -/
inductive PyExc where
  | keyError (msg : String)
  | typeError (msg : String)
  | parseStatusError (msg : String)
  | genericExc (msg : String)
  | unboundLocal (var : String)
  | attributeError (msg : String)
deriving DecidableEq

/-- `exceptions.ParseStatusError.__init__` prefixes the text
(`f'Парсинг ответа API: {text}'`) before storing it. -/
def mkParseStatusError (text : String) : PyExc :=
  .parseStatusError ("Парсинг ответа API: " ++ text)

/-- Python `str(error)` as used in `f'Сбой в работе программы: {error}'`
(homework.py line 189). Renderings are simplified (e.g. CPython quotes the
message of a `KeyError`); only equality of rendered messages across
iterations is observable through the dedup logic, and no claim depends on
the exact text. -/
def excStr : PyExc → String
  | .keyError m => m
  | .typeError m => m
  | .parseStatusError m => m
  | .genericExc m => m
  | .unboundLocal v => "local variable " ++ v ++ " referenced before assignment"
  | .attributeError m => m

/-- `HOMEWORK_VERDICTS.get(status)` (homework.py lines 29-33). Takes the
raw status value: only the three fixed string keys hit; any other value
(including non-strings and `None`) misses. Since the dict holds no `None`
values, `status in HOMEWORK_VERDICTS` is equivalent to this lookup
succeeding, and the code is modelled through that equivalence. -/
def HOMEWORK_VERDICTS_get : PyVal → Option String
  | .str s =>
    if s = "approved" then Option.some "Работа проверена: ревьюеру всё понравилось. Ура!"
    else if s = "reviewing" then Option.some "Работа взята на проверку ревьюером."
    else if s = "rejected" then Option.some "Работа проверена: у ревьюера есть замечания."
    else Option.none
  | _ => Option.none

/-- The f-string at homework.py line 148:
`f'Изменился статус проверки работы "{homework_name}". {verdict}'`. -/
def statusMessage (name verdict : String) : String :=
  "Изменился статус проверки работы \"" ++ name ++ "\". " ++ verdict

/-- homework.py lines 126-148 (`parse_status`). Check order as in the
source: falsy `homework.get('homework_name')` raises `KeyError` (the
`'NoName'` fallback is assigned but unreachable past the raise); then
`'status' not in homework` raises `ParseStatusError`; then the verdict is
looked up with `.get` and `status not in HOMEWORK_VERDICTS` raises
`KeyError` before the template is returned (lookup miss and failed
membership coincide, see `HOMEWORK_VERDICTS_get`). Calling `.get` on a
non-dict item raises `AttributeError` in Python. -/
def parse_status (homework : PyVal) : Except PyExc String :=
  match homework with
  | .dict es =>
    if !truthy (dictGet es "homework_name") then
      .error (.keyError "В ответе API отсутствует ожидаемый ключ \"homework_name\".")
    else if !hasKey es "status" then
      .error (mkParseStatusError "Отсутстует ключ homework_status.")
    else
      match HOMEWORK_VERDICTS_get (dictGet es "status") with
      | Option.some verdict =>
        .ok (statusMessage (pyStr (dictGet es "homework_name")) verdict)
      | Option.none => .error (.keyError "Неизвестный статус домашней работы")
  | _ => .error (.attributeError "value has no attribute get")

/-- homework.py lines 101-123 (`check_response`). Check order as in the
source: falsy response raises `KeyError` (line 103); non-dict raises
`TypeError` (line 108); missing `'homeworks'` key raises `KeyError`
(line 113); `response.get('homeworks')` not a list raises `TypeError`
(line 118); otherwise `response['homeworks']` is returned. -/
def check_response (response : PyVal) : Except PyExc (List PyVal) :=
  if !truthy response then
    .error (.keyError "В словаре нет данных.")
  else if !isDict response then
    .error (.typeError "В словаре некорректный тип данных.")
  else if !hasKeyV response "homeworks" then
    .error (.keyError "В словаре отсутствуют ожидаемые ключи.")
  else
    match pyGet response "homeworks" with
    | .list hw => .ok hw
    | _ => .error (.typeError "Формат ответа не соответствует искомому.")

/-- The outgoing HTTP request as `get_api_answer` builds it (homework.py
lines 76-82): the `from_date` query parameter and the `Authorization`
header from `HEADERS` (line 26, `f'OAuth {PRACTICUM_TOKEN}'`). -/
structure ApiRequest where
  from_date : Int
  authHeader : String
deriving DecidableEq

/-- homework.py lines 76-82, the request construction inside
`get_api_answer`: `timestamp = timestamp or int(time.time())` replaces a
falsy cursor (`None`, or the int `0`) by the current time `now`;
`params = {'from_date': timestamp}`; headers are `HEADERS`. -/
def get_api_answer_request (token : String) (now : Int) (timestamp : Option Int) : ApiRequest :=
  let t := match timestamp with
    | Option.none => now
    | Option.some n => if n = 0 then now else n
  { from_date := t, authHeader := "OAuth " ++ token }

/-- What the network and JSON layer do on one call of `get_api_answer`:
either `requests.get` raises, or it returns a response with an HTTP status
code and a body on which `.json()` either fails (`Option.none`) or
produces a decoded `PyVal`. -/
inductive TransportResult where
  | raised
  | resp (status : Nat) (body : Option PyVal)

/-- homework.py lines 78-98 (`get_api_answer`), given the transport's
behaviour. If `requests.get` raises, the `except` clause only logs, and
line 85 then reads the never-assigned `response_from_api`, so the call
ends in `UnboundLocalError`. A non-200 status raises a plain
`Exception` with the status code in its message (lines 89-91). A
`json.JSONDecodeError` is only logged, and `return response` at line 98
then reads the never-assigned `response`, again `UnboundLocalError`.
Only a 200 response with a decodable body returns a payload. -/
def get_api_answer (tr : TransportResult) : Except PyExc PyVal :=
  match tr with
  | .raised => .error (.unboundLocal "response_from_api")
  | .resp status body =>
    if status ≠ 200 then
      .error (.genericExc ("Ошибка ответа от API адреса: " ++ toString status))
    else
      match body with
      | Option.none => .error (.unboundLocal "response")
      | Option.some p => .ok p

/-- The `last_send` dict of `main` (homework.py line 162): last message
delivered per key. `Option.none` covers both an absent key and a stored
Python `None` — the two are indistinguishable through `last_send.get`,
and the `'error'` key (always present, `None` meaning "no error") is only
ever compared against strings. -/
def Memory : Type := String → Option String

/-- `last_send[k] = v`. -/
def recordSend (mem : Memory) (k : String) (v : Option String) : Memory :=
  fun x => if x = k then v else mem x

/-- The dedup-and-send step shared by homework.py lines 184-186 (per
work-item key) and lines 190-192 (the `'error'` sentinel key): if the
stored value differs from `m` (or is absent), send and record; the Bool
reports whether `send_message` was called. -/
def notifyStep (mem : Memory) (k m : String) : Memory × Bool :=
  if mem k ≠ Option.some m then (recordSend mem k (Option.some m), true)
  else (mem, false)

/-- `homework['homework_name']` at lines 184 and 186, as the dedup key.
Direct subscription raises `KeyError` on an absent key (unreachable in the
loop: `parse_status` has already required a truthy name); a non-string
name value is rendered to a string key (no claim distinguishes such keys). -/
def itemKey : PyVal → Except PyExc String
  | .dict es =>
    match dictGet es "homework_name" with
    | .none => .error (.keyError "homework_name")
    | v => .ok (pyStr v)
  | _ => .error (.typeError "value is not subscriptable")

/-- The `for homework in homeworks` loop of `main` (lines 182-186),
threading `last_send` and accumulating the `(key, message)` pairs passed
to `send_message`. An exception from `parse_status` (or from the key
subscription) aborts the loop, keeping the updates and sends already
made. -/
def processItems (mem : Memory) (sent : List (String × String)) :
    List PyVal → Except (PyExc × Memory × List (String × String)) (Memory × List (String × String))
  | [] => .ok (mem, sent)
  | hw :: rest =>
    match parse_status hw with
    | .error e => .error (e, mem, sent)
    | .ok message =>
      match itemKey hw with
      | .error e => .error (e, mem, sent)
      | .ok key =>
        let step := notifyStep mem key message
        processItems step.1 (if step.2 then sent ++ [(key, message)] else sent) rest

/-- `response.get('current_date')` at line 187, as the new cursor value.
A present non-int value is collapsed to `Option.none` (like an absent
key, it is falsy-irrelevant for the claims and never arises in the
modelled runs). -/
def getCurrentDate (response : PyVal) : Option Int :=
  match pyGet response "current_date" with
  | .int n => Option.some n
  | _ => Option.none

/-- The state `main` carries across iterations: the `timestamp` cursor
(line 173, possibly `None` after line 187 when `current_date` is absent)
and the `last_send` memory. -/
structure LoopState where
  timestamp : Option Int
  last_send : Memory

/-- How one iteration of the `while True` loop ended: the `try` block ran
to completion (`ok`, so the `else` clause ran), it left via `break` at
line 181 (`broke`, so the `else` clause was skipped), or an exception was
caught at line 188 (`caught`). -/
inductive IterOutcome where
  | ok
  | broke
  | caught
deriving DecidableEq

/-- The observable result of one loop iteration: the new state, the
`(key, message)` pairs passed to `send_message`, and how the `try` ended. -/
structure IterResult where
  state : LoopState
  sent : List (String × String)
  outcome : IterOutcome

/-- The `except Exception` clause of `main` (lines 188-192): format
`f'Сбой в работе программы: {error}'` and route it through the dedup step
under the `'error'` key. The cursor is left as it was (line 187 sits in
the `try` and was skipped), and updates made before the exception stand. -/
def handleExc (ts : Option Int) (mem : Memory) (sentSoFar : List (String × String))
    (e : PyExc) : IterResult :=
  let message := "Сбой в работе программы: " ++ excStr e
  let step := notifyStep mem "error" message
  { state := { timestamp := ts, last_send := step.1 },
    sent := if step.2 then sentSoFar ++ [("error", message)] else sentSoFar,
    outcome := .caught }

/-- Lines 179-187 of `main`, after `check_response` succeeded: an empty
list logs and `break`s (leaving the whole state untouched — the `else`
clause at lines 193-194 does not run when the `try` is left via `break`);
otherwise the items are processed, the cursor becomes the response's
`current_date`, and the `else` clause clears `last_send['error']`. -/
def afterValidate (st : LoopState) (response : PyVal) (homeworks : List PyVal) : IterResult :=
  if homeworks.length = 0 then
    { state := st, sent := [], outcome := .broke }
  else
    match processItems st.last_send [] homeworks with
    | .error (e, mem, sentSoFar) => handleExc st.timestamp mem sentSoFar e
    | .ok (mem, sentList) =>
      { state := { timestamp := getCurrentDate response,
                   last_send := recordSend mem "error" Option.none },
        sent := sentList, outcome := .ok }

/-- Line 178 of `main`: validate the fetched response. -/
def afterFetch (st : LoopState) (response : PyVal) : IterResult :=
  match check_response response with
  | .error e => handleExc st.timestamp st.last_send [] e
  | .ok homeworks => afterValidate st response homeworks

/-- One iteration of the `while True` loop (lines 175-196), driven by the
transport's behaviour for this iteration. The unconditional
`finally: time.sleep(RETRY_PERIOD)` has no observable effect in the model. -/
def iteration (tr : TransportResult) (st : LoopState) : IterResult :=
  match get_api_answer tr with
  | .error e => handleExc st.timestamp st.last_send [] e
  | .ok response => afterFetch st response

/-- The `while True` loop run over the first `n` iterations' transport
behaviours: final state, all `(key, message)` pairs sent in order, and
whether the loop terminated via the empty-batch `break`. -/
def run : List TransportResult → LoopState → LoopState × List (String × String) × Bool
  | [], st => (st, [], false)
  | tr :: rest, st =>
    let r := iteration tr st
    match r.outcome with
    | .broke => (r.state, r.sent, true)
    | _ =>
      let next := run rest r.state
      (next.1, r.sent ++ next.2.1, next.2.2)

/-- The state `main` starts the loop with (lines 162-164 and 173):
`last_send = {'error': None}` and `timestamp = int(time.time())`. -/
def initState (now : Int) : LoopState :=
  { timestamp := Option.some now, last_send := fun _ => Option.none }

/-- The validation order as §4.2 of the spec states it: emptiness first,
then shape (the response is a mapping AND its `homeworks` field is a
sequence), then presence of the `homeworks` key. Written from the spec's
words, to be compared with `check_response` above (which checks the
sequence shape only after key presence). -/
def check_response_claimed (response : PyVal) : Except PyExc (List PyVal) :=
  if !truthy response then
    .error (.keyError "В словаре нет данных.")
  else if !isDict response then
    .error (.typeError "В словаре некорректный тип данных.")
  else if !isList (pyGet response "homeworks") then
    .error (.typeError "Формат ответа не соответствует искомому.")
  else if !hasKeyV response "homeworks" then
    .error (.keyError "В словаре отсутствуют ожидаемые ключи.")
  else
    match pyGet response "homeworks" with
    | .list hw => .ok hw
    | _ => .error (.typeError "Формат ответа не соответствует искомому.")

/-- The empty memory (no key ever sent). -/
def emptyMem : Memory := fun _ => Option.none

/-- Sample work item: `{"homework_name": "hw1", "status": "approved"}`. -/
def hwA : PyVal := .dict [("homework_name", .str "hw1"), ("status", .str "approved")]

/-- Sample response with one item and `current_date = 1000`. -/
def respA : PyVal := .dict [("homeworks", .list [hwA]), ("current_date", .int 1000)]

/-- Sample response with one item and the EARLIER `current_date = 5`. -/
def respB : PyVal := .dict [("homeworks", .list [hwA]), ("current_date", .int 5)]

/-- Sample response with an empty homeworks list. -/
def respEmpty : PyVal := .dict [("homeworks", .list []), ("current_date", .int 7)]

/-- Transport behaviours delivering the samples with HTTP 200. -/
def trA : TransportResult := .resp 200 (Option.some respA)

def trB : TransportResult := .resp 200 (Option.some respB)

def trEmpty : TransportResult := .resp 200 (Option.some respEmpty)

/-- A start state: cursor 100, fresh memory. -/
def st0 : LoopState := initState 100

/-- A work item whose `homework_name` is present but the empty string. -/
def hwEmptyName : PyVal := .dict [("homework_name", .str ""), ("status", .str "approved")]

theorem dictGet_ne_none_hasKey (es : List (String × PyVal)) (k : String)
    (h : dictGet es k ≠ PyVal.none) : hasKey es k = true := by
  induction es with
  | nil => simp [dictGet] at h
  | cons e rest ih =>
    obtain ⟨a, v⟩ := e
    by_cases hak : a = k
    · simp [hasKey, hak]
    · rw [dictGet, if_neg hak] at h
      simp [hasKey, hak, ih h]

theorem parse_status_ok_inv (es : List (String × PyVal)) (m : String)
    (h : parse_status (PyVal.dict es) = Except.ok m) :
    ∃ verdict, truthy (dictGet es "homework_name") = true
      ∧ HOMEWORK_VERDICTS_get (dictGet es "status") = Option.some verdict
      ∧ m = statusMessage (pyStr (dictGet es "homework_name")) verdict := by
  cases htr : truthy (dictGet es "homework_name") with
  | false => simp [parse_status, htr] at h
  | true =>
    cases hk : hasKey es "status" with
    | false => simp [parse_status, htr, hk] at h
    | true =>
      cases hv : HOMEWORK_VERDICTS_get (dictGet es "status") with
      | none => simp [parse_status, htr, hk, hv] at h
      | some verdict =>
        refine ⟨verdict, rfl, rfl, ?_⟩
        simp [parse_status, htr, hk, hv] at h
        exact h.symm

/-- Claim C1: for every dedup key and message, the loop's dedup step
(homework.py lines 184-186 and 190-192) calls the notifier only if the
value stored under that key is absent or differs from the message; after
the step the stored value equals the message; and presenting the same key
and message twice in a row delivers on the first presentation and
suppresses the second, leaving the memory unchanged. -/
theorem dedup_delivers_only_on_change (mem : Memory) (k m : String) :
    ((notifyStep mem k m).2 = true ↔ mem k ≠ Option.some m)
    ∧ (notifyStep mem k m).1 k = Option.some m
    ∧ (mem k ≠ Option.some m →
        (notifyStep mem k m).2 = true
        ∧ (notifyStep (notifyStep mem k m).1 k m).2 = false
        ∧ (notifyStep (notifyStep mem k m).1 k m).1 = (notifyStep mem k m).1) := by
  by_cases h : mem k = Option.some m
  · refine ⟨?_, ?_, fun hne => absurd h hne⟩
    · simp [notifyStep, h]
    · simp [notifyStep, h]
  · refine ⟨?_, ?_, fun _ => ⟨?_, ?_, ?_⟩⟩
    · simp [notifyStep, h]
    · simp [notifyStep, h, recordSend]
    · simp [notifyStep, h]
    · simp [notifyStep, h, recordSend]
    · simp [notifyStep, h, recordSend]

/-- Witness for C1 at a fresh memory: the first presentation of
`("hw1", "msg")` sends, the immediate repeat does not. -/
theorem dedup_delivers_only_on_change_witness :
    (notifyStep emptyMem "hw1" "msg").2 = true
    ∧ (notifyStep (notifyStep emptyMem "hw1" "msg").1 "hw1" "msg").2 = false := by
  have hne : emptyMem "hw1" ≠ Option.some "msg" := by simp [emptyMem]
  have h := (dedup_delivers_only_on_change emptyMem "hw1" "msg").2.2 hne
  exact ⟨h.1, h.2.1⟩

/-- Claim C2, counterexample: the claim asserts that any item whose
`status` is recognized and whose name FIELD IS PRESENT yields the
template, but the item `{"homework_name": "", "status": "approved"}` has
the field present and a recognized status, and `parse_status` raises the
missing-name `KeyError` instead of returning the template. -/
theorem translate_present_empty_name_fails :
    parse_status hwEmptyName =
      Except.error (PyExc.keyError "В ответе API отсутствует ожидаемый ключ \"homework_name\".")
    ∧ parse_status hwEmptyName ≠
      Except.ok (statusMessage "" "Работа проверена: ревьюеру всё понравилось. Ура!") := by
  refine ⟨rfl, ?_⟩
  intro hc
  rw [show parse_status hwEmptyName =
      Except.error (PyExc.keyError "В ответе API отсутствует ожидаемый ключ \"homework_name\".")
    from rfl] at hc
  exact Except.noConfusion hc

/-- Claim C2 as amended: for every work item whose `homework_name` value
is a nonempty string, a `status` value among the three recognized strings
yields exactly the fixed template with the mapped verdict, and any other
string status fails with the unknown-status error (so no default or empty
verdict is ever substituted). -/
theorem translate_recognized_status (es : List (String × PyVal)) (name s : String)
    (hn : dictGet es "homework_name" = PyVal.str name) (hne : name ≠ "")
    (hs : dictGet es "status" = PyVal.str s) :
    (∀ verdict, HOMEWORK_VERDICTS_get (PyVal.str s) = Option.some verdict →
      parse_status (PyVal.dict es) = Except.ok (statusMessage name verdict))
    ∧ (HOMEWORK_VERDICTS_get (PyVal.str s) = Option.none →
      parse_status (PyVal.dict es) =
        Except.error (PyExc.keyError "Неизвестный статус домашней работы")) := by
  have htr : truthy (PyVal.str name) = true := by
    simp [truthy, hne]
  have hk : hasKey es "status" = true :=
    dictGet_ne_none_hasKey es "status" (by rw [hs]; intro hc; cases hc)
  constructor
  · intro verdict hv
    simp [parse_status, hn, htr, hk, hs, hv, pyStr]
  · intro hv
    simp [parse_status, hn, htr, hk, hs, hv]

/-- Witness for the amended C2: the sample item with name `"hw1"` and
status `"approved"` yields exactly the template with the approved verdict. -/
theorem translate_recognized_status_witness :
    parse_status hwA =
      Except.ok (statusMessage "hw1" "Работа проверена: ревьюеру всё понравилось. Ура!") := by
  exact (translate_recognized_status
    [("homework_name", PyVal.str "hw1"), ("status", PyVal.str "approved")]
    "hw1" "approved" rfl (by decide) rfl).1 _ rfl

/-- Claim C3: whenever the fetched response validates to an empty
homeworks sequence, the iteration breaks out of the loop with zero
notifications and an unchanged state, and the run over any further
planned iterations terminates right there. -/
theorem empty_batch_terminates (tr : TransportResult) (st : LoopState) (p : PyVal)
    (hf : get_api_answer tr = Except.ok p) (hc : check_response p = Except.ok []) :
    iteration tr st = { state := st, sent := [], outcome := IterOutcome.broke }
    ∧ ∀ rest, run (tr :: rest) st = (st, [], true) := by
  have hit : iteration tr st = { state := st, sent := [], outcome := IterOutcome.broke } := by
    simp [iteration, hf, afterFetch, hc, afterValidate]
  refine ⟨hit, fun rest => ?_⟩
  simp [run, hit]

/-- Witness for C3: the concrete payload
`{"homeworks": [], "current_date": 7}` terminates the loop with zero
notifications. -/
theorem empty_batch_terminates_witness :
    iteration trEmpty st0 = { state := st0, sent := [], outcome := IterOutcome.broke }
    ∧ run [trEmpty] st0 = (st0, [], true) := by
  have h := empty_batch_terminates trEmpty st0 respEmpty rfl rfl
  exact ⟨h.1, h.2 []⟩

/-- Claim C4, counterexample: the cursor CAN decrease. After a successful
iteration whose response reports `current_date = 1000`, a second
successful iteration whose response reports `current_date = 5` moves the
cursor from 1000 back to 5 — line 187 copies the server value with no
monotonicity guard. -/
theorem cursor_can_decrease :
    (run [trA] st0).1.timestamp = Option.some 1000
    ∧ (run [trA, trB] st0).1.timestamp = Option.some 5
    ∧ (5 : Int) < 1000 :=
  ⟨rfl, rfl, by decide⟩

/-- Claim C4 as amended: the cursor is created at process start as the
current time, and after each iteration whose `try` block completes
without an exception it equals exactly the `current_date` reported by
that iteration's response — but nothing prevents that value from being
earlier than the previous cursor. -/
theorem cursor_follows_current_date (now : Int) (tr : TransportResult) (st : LoopState) :
    (initState now).timestamp = Option.some now
    ∧ ((iteration tr st).outcome = IterOutcome.ok →
        ∃ p, get_api_answer tr = Except.ok p
          ∧ (iteration tr st).state.timestamp = getCurrentDate p) := by
  refine ⟨rfl, fun h => ?_⟩
  cases hga : get_api_answer tr with
  | error e =>
    simp only [iteration, hga] at h
    exact absurd h (by simp [handleExc])
  | ok p =>
    simp only [iteration, hga] at h ⊢
    refine ⟨p, rfl, ?_⟩
    cases hcr : check_response p with
    | error e =>
      simp only [afterFetch, hcr] at h
      exact absurd h (by simp [handleExc])
    | ok homeworks =>
      simp only [afterFetch, hcr] at h ⊢
      by_cases hlen : homeworks.length = 0
      · simp only [afterValidate, if_pos hlen] at h
        exact absurd h (by simp)
      · simp only [afterValidate, if_neg hlen] at h ⊢
        cases hpi : processItems st.last_send [] homeworks with
        | error t =>
          obtain ⟨e, mem2, s2⟩ := t
          simp only [hpi] at h
          exact absurd h (by simp [handleExc])
        | ok t =>
          obtain ⟨mem2, s2⟩ := t
          simp only [hpi]

/-- Witness for the amended C4: the successful sample iteration sets the
cursor to the sample response's `current_date`. -/
theorem cursor_follows_current_date_witness :
    (iteration trA st0).state.timestamp = getCurrentDate respA := by
  obtain ⟨p, hp, ht⟩ := (cursor_follows_current_date 100 trA st0).2 rfl
  have hp2 : (Except.ok respA : Except PyExc PyVal) = Except.ok p := hp
  injection hp2 with hpe
  rw [← hpe] at ht
  exact ht

/-- Claim C5 (code bug): `get_api_answer` raises none of the typed
errors. A transport-level failure is swallowed and the status check then
reads the never-assigned `response_from_api` (`UnboundLocalError`); a
non-success HTTP status raises a plain `Exception` carrying the code only
in its message; an undecodable body is swallowed and `return response`
reads the never-assigned `response` (`UnboundLocalError`). Only the
success path behaves as specified. -/
theorem fetch_error_classification :
    get_api_answer TransportResult.raised =
      Except.error (PyExc.unboundLocal "response_from_api")
    ∧ get_api_answer (TransportResult.resp 503 Option.none) =
      Except.error (PyExc.genericExc "Ошибка ответа от API адреса: 503")
    ∧ get_api_answer (TransportResult.resp 200 Option.none) =
      Except.error (PyExc.unboundLocal "response")
    ∧ ∀ p, get_api_answer (TransportResult.resp 200 (Option.some p)) = Except.ok p :=
  ⟨rfl, rfl, rfl, fun _ => rfl⟩

/-- Claim C6, counterexample: on `{"a": 1}` the spec's check order
(shape — including "`homeworks` is a sequence" — before key presence)
yields the format `TypeError`, but `check_response` yields the
missing-keys `KeyError`: the sequence-shape check at line 118 runs only
AFTER the key-presence check at line 113. -/
theorem shape_after_key_presence :
    check_response (PyVal.dict [("a", PyVal.int 1)]) =
      Except.error (PyExc.keyError "В словаре отсутствуют ожидаемые ключи.")
    ∧ check_response_claimed (PyVal.dict [("a", PyVal.int 1)]) =
      Except.error (PyExc.typeError "Формат ответа не соответствует искомому.")
    ∧ PyExc.keyError "В словаре отсутствуют ожидаемые ключи." ≠
      PyExc.typeError "Формат ответа не соответствует искомому." :=
  ⟨rfl, rfl, by decide⟩

/-- Claim C6 as amended: `check_response` checks in the exact order
emptiness, then the mapping shape, then presence of the `homeworks` key,
then that the `homeworks` field is a sequence. An input that is both
empty and malformed is classified as empty, and a non-mapping is detected
before a missing key, but a missing key is detected before the
sequence-shape check. -/
theorem check_response_order (r : PyVal) :
    (truthy r = false →
      check_response r = Except.error (PyExc.keyError "В словаре нет данных."))
    ∧ (truthy r = true → isDict r = false →
      check_response r = Except.error (PyExc.typeError "В словаре некорректный тип данных."))
    ∧ (truthy r = true → isDict r = true → hasKeyV r "homeworks" = false →
      check_response r = Except.error (PyExc.keyError "В словаре отсутствуют ожидаемые ключи."))
    ∧ (truthy r = true → isDict r = true → hasKeyV r "homeworks" = true →
      isList (pyGet r "homeworks") = false →
      check_response r = Except.error (PyExc.typeError "Формат ответа не соответствует искомому.")) := by
  refine ⟨?_, ?_, ?_, ?_⟩
  · intro h1
    simp [check_response, h1]
  · intro h1 h2
    simp [check_response, h1, h2]
  · intro h1 h2 h3
    simp [check_response, h1, h2, h3]
  · intro h1 h2 h3 h4
    cases hres : pyGet r "homeworks" with
    | list xs => rw [hres] at h4; simp [isList] at h4
    | none => simp [check_response, h1, h2, h3, hres]
    | int n => simp [check_response, h1, h2, h3, hres]
    | str s => simp [check_response, h1, h2, h3, hres]
    | dict es => simp [check_response, h1, h2, h3, hres]

/-- Witness for the amended C6, exercising each guarded branch at a
concrete input. -/
theorem check_response_order_witness :
    check_response (PyVal.dict []) = Except.error (PyExc.keyError "В словаре нет данных.")
    ∧ check_response (PyVal.str "x") =
      Except.error (PyExc.typeError "В словаре некорректный тип данных.")
    ∧ check_response (PyVal.dict [("a", PyVal.int 1)]) =
      Except.error (PyExc.keyError "В словаре отсутствуют ожидаемые ключи.")
    ∧ check_response (PyVal.dict [("homeworks", PyVal.int 1)]) =
      Except.error (PyExc.typeError "Формат ответа не соответствует искомому.") :=
  ⟨(check_response_order (PyVal.dict [])).1 rfl,
   (check_response_order (PyVal.str "x")).2.1 rfl rfl,
   (check_response_order (PyVal.dict [("a", PyVal.int 1)])).2.2.1 rfl rfl rfl,
   (check_response_order (PyVal.dict [("homeworks", PyVal.int 1)])).2.2.2 rfl rfl rfl rfl⟩

/-- Claim C7 (code bug): a non-empty payload lacking the `homeworks` key
makes `check_response` raise the builtin `KeyError` (line 116) — the same
exception class the empty case raises at line 106, distinguishable only
by message — not the typed `KeyResponseError` that `src/exceptions.py`
declares for exactly this condition and that is never raised anywhere. -/
theorem missing_key_raises_builtin_keyerror :
    check_response (PyVal.dict [("current_date", PyVal.int 1)]) =
      Except.error (PyExc.keyError "В словаре отсутствуют ожидаемые ключи.")
    ∧ check_response (PyVal.dict []) =
      Except.error (PyExc.keyError "В словаре нет данных.") :=
  ⟨rfl, rfl⟩

/-- Claim C8, counterexample: an iteration that fails sets the error
sentinel; the next iteration returns an empty homeworks list and leaves
the `try` via `break`, which SKIPS the `else` clause at lines 193-194 —
so the loop terminates with the sentinel still holding the old error
message even though that final iteration completed without an unhandled
exception. -/
theorem break_skips_error_reset :
    (run [TransportResult.raised, trEmpty] st0).2.2 = true
    ∧ (run [TransportResult.raised, trEmpty] st0).1.last_send "error" =
      Option.some ("Сбой в работе программы: "
        ++ excStr (PyExc.unboundLocal "response_from_api")) :=
  ⟨rfl, rfl⟩

/-- Claim C8 as amended: the error sentinel is reset to "no error"
exactly after an iteration whose `try` block runs to completion (no
exception and no empty-batch `break`); the `break` iteration leaves the
whole memory, the sentinel included, untouched. -/
theorem error_sentinel_reset (tr : TransportResult) (st : LoopState) :
    ((iteration tr st).outcome = IterOutcome.ok →
      (iteration tr st).state.last_send "error" = Option.none)
    ∧ ((iteration tr st).outcome = IterOutcome.broke →
      (iteration tr st).state.last_send = st.last_send) := by
  constructor
  · intro h
    cases hga : get_api_answer tr with
    | error e =>
      simp only [iteration, hga] at h
      exact absurd h (by simp [handleExc])
    | ok p =>
      simp only [iteration, hga] at h ⊢
      cases hcr : check_response p with
      | error e =>
        simp only [afterFetch, hcr] at h
        exact absurd h (by simp [handleExc])
      | ok homeworks =>
        simp only [afterFetch, hcr] at h ⊢
        by_cases hlen : homeworks.length = 0
        · simp only [afterValidate, if_pos hlen] at h
          exact absurd h (by simp)
        · simp only [afterValidate, if_neg hlen] at h ⊢
          cases hpi : processItems st.last_send [] homeworks with
          | error t =>
            obtain ⟨e, mem2, s2⟩ := t
            simp only [hpi] at h
            exact absurd h (by simp [handleExc])
          | ok t =>
            obtain ⟨mem2, s2⟩ := t
            simp only [hpi]
            simp [recordSend]
  · intro h
    cases hga : get_api_answer tr with
    | error e =>
      simp only [iteration, hga] at h
      exact absurd h (by simp [handleExc])
    | ok p =>
      simp only [iteration, hga] at h ⊢
      cases hcr : check_response p with
      | error e =>
        simp only [afterFetch, hcr] at h
        exact absurd h (by simp [handleExc])
      | ok homeworks =>
        simp only [afterFetch, hcr] at h ⊢
        by_cases hlen : homeworks.length = 0
        · simp only [afterValidate, if_pos hlen]
        · simp only [afterValidate, if_neg hlen] at h
          cases hpi : processItems st.last_send [] homeworks with
          | error t =>
            obtain ⟨e, mem2, s2⟩ := t
            simp only [hpi] at h
            exact absurd h (by simp [handleExc])
          | ok t =>
            obtain ⟨mem2, s2⟩ := t
            simp only [hpi] at h
            exact absurd h (by simp)

/-- Witness for the amended C8: the successful sample iteration clears
the error sentinel, and the empty-batch iteration leaves memory alone. -/
theorem error_sentinel_reset_witness :
    (iteration trA st0).state.last_send "error" = Option.none
    ∧ (iteration trEmpty st0).state.last_send = st0.last_send :=
  ⟨(error_sentinel_reset trA st0).1 rfl, (error_sentinel_reset trEmpty st0).2 rfl⟩

/-- Claim C9, counterexample: the cursor value `0` is falsy, so
`timestamp = timestamp or int(time.time())` (line 76) replaces it with
the current time — the request does NOT carry the cursor that was passed. -/
theorem zero_cursor_replaced :
    (get_api_answer_request "token" 777 (Option.some 0)).from_date = 777
    ∧ (777 : Int) ≠ 0 :=
  ⟨rfl, by decide⟩

/-- Claim C9 as amended: for every truthy (nonzero) cursor the request
carries exactly that cursor as `from_date` and always the fixed OAuth
credential header; a falsy cursor (`None` or `0`) is replaced by the
current time. -/
theorem request_carries_cursor (token : String) (now t : Int) (h : t ≠ 0) :
    (get_api_answer_request token now (Option.some t)).from_date = t
    ∧ (get_api_answer_request token now (Option.some t)).authHeader = "OAuth " ++ token
    ∧ (get_api_answer_request token now Option.none).from_date = now
    ∧ (get_api_answer_request token now (Option.some 0)).from_date = now := by
  refine ⟨?_, rfl, rfl, rfl⟩
  simp [get_api_answer_request, h]

/-- Witness for the amended C9 at the concrete cursor 42. -/
theorem request_carries_cursor_witness :
    (get_api_answer_request "tok" 9 (Option.some 42)).from_date = 42 :=
  (request_carries_cursor "tok" 9 42 (by decide)).1

/-- Claim C10: `parse_status` raises the missing-name `KeyError` for
every work item whose `homework_name` value is falsy (absent key, empty
string, `None`, ...), and every successfully returned message carries the
item's own (truthy) name — the `'NoName'` fallback value assigned at line
130 is dead: the raise at line 132 makes it unreachable. -/
theorem falsy_name_rejected (es : List (String × PyVal)) :
    (truthy (dictGet es "homework_name") = false →
      parse_status (PyVal.dict es) =
        Except.error (PyExc.keyError "В ответе API отсутствует ожидаемый ключ \"homework_name\"."))
    ∧ (∀ m, parse_status (PyVal.dict es) = Except.ok m →
        ∃ verdict, truthy (dictGet es "homework_name") = true
          ∧ m = statusMessage (pyStr (dictGet es "homework_name")) verdict) := by
  constructor
  · intro h
    simp [parse_status, h]
  · intro m hm
    obtain ⟨verdict, htr, _, hmsg⟩ := parse_status_ok_inv es m hm
    exact ⟨verdict, htr, hmsg⟩

/-- Witness for C10: the name key absent, the empty-string name, and the
`None` name are all rejected with the missing-name `KeyError`. -/
theorem falsy_name_rejected_witness :
    parse_status (PyVal.dict [("status", PyVal.str "approved")]) =
      Except.error (PyExc.keyError "В ответе API отсутствует ожидаемый ключ \"homework_name\".")
    ∧ parse_status hwEmptyName =
      Except.error (PyExc.keyError "В ответе API отсутствует ожидаемый ключ \"homework_name\".")
    ∧ parse_status (PyVal.dict [("homework_name", PyVal.none), ("status", PyVal.str "approved")]) =
      Except.error (PyExc.keyError "В ответе API отсутствует ожидаемый ключ \"homework_name\".") :=
  ⟨(falsy_name_rejected [("status", PyVal.str "approved")]).1 rfl,
   (falsy_name_rejected [("homework_name", PyVal.str ""), ("status", PyVal.str "approved")]).1 rfl,
   (falsy_name_rejected [("homework_name", PyVal.none), ("status", PyVal.str "approved")]).1 rfl⟩

end HomeworkBot
